import Mathlib

/-!
Verification development for the omega_format typed record model:
`ObjectClassification` and `Object` (src/omega_format/perception/object.py)
and the settings override capability (src/omega_format/settings.py).

Python floats are modelled as exact rationals (`Rat`); enum-coded values
(`PerceptionTypes.*`, external to the sources at hand) are modelled by their
integer codes.  Python's fatal `assert` statements are modelled by returning
`Option` (`none` = the operation raises).  The hierarchical HDF5 container is
modelled as a tree of named attributes, datasets and subgroups.
-/

namespace OmegaFormat

/-- Python list/array slice `l[b:e]` for nonnegative bounds `b`, `e`
(all slices in the modelled code occur after `assert birth >= 0`, so the
negative-index wrap-around of Python slicing never arises). -/
def pySlice (b e : Nat) (l : List α) : List α :=
  (l.drop b).take (e - b)

/-- A dataset stored in the hierarchical container: either an array of
enum codes / integers or an array of floating point numbers. -/
inductive StoreData where
  | ints : List Int → StoreData
  | rats : List Rat → StoreData

/-- The abstract hierarchical store node (h5py `Group`): named integer
attributes, named datasets and named subgroups. -/
inductive Group where
  | mk : List (String × Int) → List (String × StoreData) → List (String × Group) → Group

/-- Look up a named attribute of a group. -/
def Group.attr (g : Group) (name : String) : Option Int :=
  match g with | .mk a _ _ => a.lookup name

/-- Look up a named dataset of a group. -/
def Group.dataset (g : Group) (name : String) : Option StoreData :=
  match g with | .mk _ d _ => d.lookup name

/-- Look up a named subgroup of a group. -/
def Group.subgroup (g : Group) (name : String) : Option Group :=
  match g with | .mk _ _ s => s.lookup name

/-- Read a named dataset as an integer (enum-coded) array. -/
def Group.datasetInts (g : Group) (name : String) : Option (List Int) :=
  match g.dataset name with
  | some (.ints l) => some l
  | _ => none

/-- Read a named dataset as a floating point array. -/
def Group.datasetRats (g : Group) (name : String) : Option (List Rat) :=
  match g.dataset name with
  | some (.rats l) => some l
  | _ => none

/-- Modelled from the spec: `ValVar` is an external leaf type (not among the
given sources), "a value/validity pair representing a time series of a
physical quantity plus a per-sample validity/confidence indicator". -/
structure ValVar where
  val : List Rat
  valid : List Rat
deriving DecidableEq

/-- Modelled from the spec: `ValVar.cut_to_timespan(birth, death)` narrows
both series to the closed (inclusive-end) index range `[birth, death]`. -/
def ValVar.cut_to_timespan (birth death : Int) (v : ValVar) : ValVar :=
  { val := pySlice birth.toNat (death.toNat + 1) v.val,
    valid := pySlice birth.toNat (death.toNat + 1) v.valid }

/-- Modelled from the spec: the "ValVar layout" stores the value series and
the validity series as two named sibling datasets. -/
def ValVar.to_hdf5 (v : ValVar) : Group :=
  Group.mk [] [("val", .rats v.val), ("valid", .rats v.valid)] []

/-- Modelled from the spec: `ValVar.from_store` reads the two datasets back. -/
def ValVar.from_hdf5 (g : Group) : Option ValVar := do
  let val ← g.datasetRats "val"
  let valid ← g.datasetRats "valid"
  some { val := val, valid := valid }

/-- Source `ObjectClassification`: a label sequence (enum codes) paired with a
confidence sequence. -/
structure ObjectClassification where
  val : List Int
  confidence : List Rat
deriving DecidableEq

/-- Validator `check_confidence_values`: `v.size==0 or np.all(0<=v and v<=1)`.
`true` means the assertion passes. -/
def ObjectClassification.check_confidence_values (v : List Rat) : Bool :=
  v.isEmpty || v.all (fun x => decide (0 ≤ x) && decide (x ≤ 1))

/-- Validator `check_array_length`: warns (never fails) when
`len(v) != len(values.get('val'))`.  `true` means the warning is emitted. -/
def ObjectClassification.check_array_length (v : List Rat) (val : List Int) : Bool :=
  v.length != val.length

/-- Validated pydantic construction of an `ObjectClassification`:
`check_confidence_values` runs first and aborts construction on failure
(`none`); `check_array_length` then only emits a warning.  The result pairs
the constructed record with the warning flag. -/
def ObjectClassification.mk_validated (val : List Int) (confidence : List Rat) :
    Option (ObjectClassification × Bool) :=
  if ObjectClassification.check_confidence_values confidence then
    some ({ val := val, confidence := confidence },
          ObjectClassification.check_array_length confidence val)
  else none

/-- Source `ObjectClassification.cut_to_timespan(birth, death)`: asserts
`birth >= 0`, `birth <= death`; trims `val` and `confidence` independently,
each only when non-empty and then only after asserting its length exceeds
both `birth` and `death`.  `none` models a raised `AssertionError`. -/
def ObjectClassification.cut_to_timespan (birth death : Int)
    (c : ObjectClassification) : Option ObjectClassification :=
  if birth ≥ 0 ∧ birth ≤ death then
    if c.val.length > 0 ∧
        ¬((c.val.length : Int) > birth ∧ (c.val.length : Int) > death) then
      none
    else if c.confidence.length > 0 ∧
        ¬((c.confidence.length : Int) > birth ∧ (c.confidence.length : Int) > death) then
      none
    else
      some { val := if c.val.length > 0 then
                      pySlice birth.toNat (death.toNat + 1) c.val
                    else c.val,
             confidence := if c.confidence.length > 0 then
                             pySlice birth.toNat (death.toNat + 1) c.confidence
                           else c.confidence }
  else none

/-- Source `ObjectClassification.to_hdf5`: writes `val` and `confidence` as two
sibling datasets. -/
def ObjectClassification.to_hdf5 (c : ObjectClassification) : Group :=
  Group.mk [] [("val", .ints c.val), ("confidence", .rats c.confidence)] []

/-- Source `ObjectClassification.from_hdf5`: reads `val` (enum-coded) and
`confidence` back; when `validate` is set the pydantic validators run
(warnings are surfaced but dropped by the caller), otherwise `construct`
bypasses them. -/
def ObjectClassification.from_hdf5 (g : Group) (validate : Bool) :
    Option ObjectClassification := do
  let val ← g.datasetInts "val"
  let confidence ← g.datasetRats "confidence"
  if validate then
    (ObjectClassification.mk_validated val confidence).map Prod.fst
  else
    some { val := val, confidence := confidence }

/-- The central per-entity record `Object`.  Field order and defaults follow
the pydantic model; enum-typed lists (`tracking_point`,
`movement_classification`, `meas_state`) carry the integer enum codes. -/
structure Object where
  id : String := "RU-1"
  birth_stamp : Int := 0
  heading : ValVar := ⟨[], []⟩
  width : ValVar := ⟨[], []⟩
  height : ValVar := ⟨[], []⟩
  length : ValVar := ⟨[], []⟩
  rcs : List Rat := []
  age : List Rat := []
  tracking_point : List Int := []
  confidence_of_existence : List Rat := []
  movement_classification : List Int := []
  meas_state : List Int := []
  dist_longitudinal : ValVar := ⟨[], []⟩
  dist_lateral : ValVar := ⟨[], []⟩
  dist_z : ValVar := ⟨[], []⟩
  rel_vel_longitudinal : ValVar := ⟨[], []⟩
  rel_vel_lateral : ValVar := ⟨[], []⟩
  abs_vel_longitudinal : ValVar := ⟨[], []⟩
  abs_vel_lateral : ValVar := ⟨[], []⟩
  rel_acc_longitudinal : ValVar := ⟨[], []⟩
  rel_acc_lateral : ValVar := ⟨[], []⟩
  abs_acc_longitudinal : ValVar := ⟨[], []⟩
  abs_acc_lateral : ValVar := ⟨[], []⟩
  object_classification : ObjectClassification := ⟨[], []⟩
deriving DecidableEq

/-- Derived property `len`: the length of `dist_lateral`'s value series,
the canonical local-time extent. -/
def Object.len (o : Object) : Nat :=
  o.dist_lateral.val.length

/-- Source `in_timespan(birth, death)`:
`birth < (birth_stamp + len(dist_lateral.val)) and death >= birth_stamp`. -/
def Object.in_timespan (obj : Object) (birth death : Int) : Bool :=
  decide (birth < obj.birth_stamp + (obj.dist_lateral.val.length : Int)) &&
    decide (death ≥ obj.birth_stamp)

/-- Source `Object.cut_to_timespan(birth, death)`: asserts `birth >= 0`,
`birth <= death`, `self.len > death`; then shifts `birth_stamp` by `birth`
and walks the instance fields: `ValVar` and `ObjectClassification` fields
delegate to their own `cut_to_timespan`, array/list fields are sliced to
`[birth : death+1]`, other fields (`id`, `birth_stamp`) are left alone.
`none` models a raised `AssertionError` (from the preconditions or from the
nested `ObjectClassification.cut_to_timespan`). -/
def Object.cut_to_timespan (birth death : Int) (o : Object) : Option Object :=
  if birth ≥ 0 ∧ birth ≤ death ∧ (o.len : Int) > death then
    match ObjectClassification.cut_to_timespan birth death o.object_classification with
    | none => none
    | some oc =>
      some { id := o.id
             birth_stamp := o.birth_stamp + birth
             heading := o.heading.cut_to_timespan birth death
             width := o.width.cut_to_timespan birth death
             height := o.height.cut_to_timespan birth death
             length := o.length.cut_to_timespan birth death
             rcs := pySlice birth.toNat (death.toNat + 1) o.rcs
             age := pySlice birth.toNat (death.toNat + 1) o.age
             tracking_point := pySlice birth.toNat (death.toNat + 1) o.tracking_point
             confidence_of_existence :=
               pySlice birth.toNat (death.toNat + 1) o.confidence_of_existence
             movement_classification :=
               pySlice birth.toNat (death.toNat + 1) o.movement_classification
             meas_state := pySlice birth.toNat (death.toNat + 1) o.meas_state
             dist_longitudinal := o.dist_longitudinal.cut_to_timespan birth death
             dist_lateral := o.dist_lateral.cut_to_timespan birth death
             dist_z := o.dist_z.cut_to_timespan birth death
             rel_vel_longitudinal := o.rel_vel_longitudinal.cut_to_timespan birth death
             rel_vel_lateral := o.rel_vel_lateral.cut_to_timespan birth death
             abs_vel_longitudinal := o.abs_vel_longitudinal.cut_to_timespan birth death
             abs_vel_lateral := o.abs_vel_lateral.cut_to_timespan birth death
             rel_acc_longitudinal := o.rel_acc_longitudinal.cut_to_timespan birth death
             rel_acc_lateral := o.rel_acc_lateral.cut_to_timespan birth death
             abs_acc_longitudinal := o.abs_acc_longitudinal.cut_to_timespan birth death
             abs_acc_lateral := o.abs_acc_lateral.cut_to_timespan birth death
             object_classification := oc }
  else none

/-- Source `Object.to_hdf5`: writes `birth_stamp` as the `birthStamp` attribute,
each raw/enum sequence as a camelCase-named dataset, each `ValVar` field and
the classification into its own named subgroup. -/
def Object.to_hdf5 (o : Object) : Group :=
  Group.mk
    [("birthStamp", o.birth_stamp)]
    [("rcs", .rats o.rcs),
     ("age", .rats o.age),
     ("trackingPoint", .ints o.tracking_point),
     ("confidenceOfExistence", .rats o.confidence_of_existence),
     ("movementClassification", .ints o.movement_classification),
     ("measState", .ints o.meas_state)]
    [("heading", o.heading.to_hdf5),
     ("width", o.width.to_hdf5),
     ("height", o.height.to_hdf5),
     ("length", o.length.to_hdf5),
     ("distLongitudinal", o.dist_longitudinal.to_hdf5),
     ("distLateral", o.dist_lateral.to_hdf5),
     ("distZ", o.dist_z.to_hdf5),
     ("relVelLongitudinal", o.rel_vel_longitudinal.to_hdf5),
     ("relVelLateral", o.rel_vel_lateral.to_hdf5),
     ("absVelLongitudinal", o.abs_vel_longitudinal.to_hdf5),
     ("absVelLateral", o.abs_vel_lateral.to_hdf5),
     ("relAccLongitudinal", o.rel_acc_longitudinal.to_hdf5),
     ("relAccLateral", o.rel_acc_lateral.to_hdf5),
     ("absAccLongitudinal", o.abs_acc_longitudinal.to_hdf5),
     ("absAccLateral", o.abs_acc_lateral.to_hdf5),
     ("objectClassification", o.object_classification.to_hdf5)]

/-- Reads the four shape `ValVar` subgroups (`heading`, `width`, `height`,
`length`) of an `Object` node. -/
def Object.shape_from_hdf5 (group : Group) :
    Option (ValVar × ValVar × ValVar × ValVar) := do
  let heading ← (group.subgroup "heading").bind ValVar.from_hdf5
  let width ← (group.subgroup "width").bind ValVar.from_hdf5
  let height ← (group.subgroup "height").bind ValVar.from_hdf5
  let length ← (group.subgroup "length").bind ValVar.from_hdf5
  some (heading, width, height, length)

/-- Reads the six raw/enum sequence datasets of an `Object` node. -/
def Object.raw_from_hdf5 (group : Group) :
    Option (List Rat × List Rat × List Int × List Rat × List Int × List Int) := do
  let rcs ← group.datasetRats "rcs"
  let age ← group.datasetRats "age"
  let tracking_point ← group.datasetInts "trackingPoint"
  let confidence_of_existence ← group.datasetRats "confidenceOfExistence"
  let movement_classification ← group.datasetInts "movementClassification"
  let meas_state ← group.datasetInts "measState"
  some (rcs, age, tracking_point, confidence_of_existence,
        movement_classification, meas_state)

/-- Reads the three distance `ValVar` subgroups of an `Object` node. -/
def Object.dist_from_hdf5 (group : Group) :
    Option (ValVar × ValVar × ValVar) := do
  let dist_longitudinal ← (group.subgroup "distLongitudinal").bind ValVar.from_hdf5
  let dist_lateral ← (group.subgroup "distLateral").bind ValVar.from_hdf5
  let dist_z ← (group.subgroup "distZ").bind ValVar.from_hdf5
  some (dist_longitudinal, dist_lateral, dist_z)

/-- Reads the four velocity `ValVar` subgroups of an `Object` node. -/
def Object.vel_from_hdf5 (group : Group) :
    Option (ValVar × ValVar × ValVar × ValVar) := do
  let rel_vel_longitudinal ← (group.subgroup "relVelLongitudinal").bind ValVar.from_hdf5
  let rel_vel_lateral ← (group.subgroup "relVelLateral").bind ValVar.from_hdf5
  let abs_vel_longitudinal ← (group.subgroup "absVelLongitudinal").bind ValVar.from_hdf5
  let abs_vel_lateral ← (group.subgroup "absVelLateral").bind ValVar.from_hdf5
  some (rel_vel_longitudinal, rel_vel_lateral, abs_vel_longitudinal, abs_vel_lateral)

/-- Reads the four acceleration `ValVar` subgroups of an `Object` node. -/
def Object.acc_from_hdf5 (group : Group) :
    Option (ValVar × ValVar × ValVar × ValVar) := do
  let rel_acc_longitudinal ← (group.subgroup "relAccLongitudinal").bind ValVar.from_hdf5
  let rel_acc_lateral ← (group.subgroup "relAccLateral").bind ValVar.from_hdf5
  let abs_acc_longitudinal ← (group.subgroup "absAccLongitudinal").bind ValVar.from_hdf5
  let abs_acc_lateral ← (group.subgroup "absAccLateral").bind ValVar.from_hdf5
  some (rel_acc_longitudinal, rel_acc_lateral, abs_acc_longitudinal, abs_acc_lateral)

/-- Source `Object.from_hdf5`: `name` stands for the store node's own name
(the Python code derives `id` as `group.name.rpartition('/')[-1]`); reads
`birthStamp` from the attribute, each `ValVar` field and the classification
from its named subgroup, and the raw/enum sequences from named datasets
(grouped here into the helper readers above). -/
def Object.from_hdf5 (name : String) (group : Group) (validate : Bool) :
    Option Object := do
  let birth_stamp ← group.attr "birthStamp"
  let shape ← Object.shape_from_hdf5 group
  let raw ← Object.raw_from_hdf5 group
  let dist ← Object.dist_from_hdf5 group
  let vel ← Object.vel_from_hdf5 group
  let acc ← Object.acc_from_hdf5 group
  let object_classification ←
    (group.subgroup "objectClassification").bind
      (fun g => ObjectClassification.from_hdf5 g validate)
  some { id := name
         birth_stamp := birth_stamp
         heading := shape.1
         width := shape.2.1
         height := shape.2.2.1
         length := shape.2.2.2
         rcs := raw.1
         age := raw.2.1
         tracking_point := raw.2.2.1
         confidence_of_existence := raw.2.2.2.1
         movement_classification := raw.2.2.2.2.1
         meas_state := raw.2.2.2.2.2
         dist_longitudinal := dist.1
         dist_lateral := dist.2.1
         dist_z := dist.2.2
         rel_vel_longitudinal := vel.1
         rel_vel_lateral := vel.2.1
         abs_vel_longitudinal := vel.2.2.1
         abs_vel_lateral := vel.2.2.2
         rel_acc_longitudinal := acc.1
         rel_acc_lateral := acc.2.1
         abs_acc_longitudinal := acc.2.2.1
         abs_acc_lateral := acc.2.2.2
         object_classification := object_classification }

/-- The process-wide settings record (src/omega_format/settings.py). -/
structure Settings where
  ALLOW_MISSING_TL_GROUPS : Bool := true
  ALLOW_INCOMPLETE_META_DATA : Bool := true
deriving DecidableEq

/-- Source `SettingsGetter.set(**kwargs)`: for each keyword whose value is not
`None`, overwrite the corresponding settings field; `None`/absent keywords
(`none` here) leave the prior value intact.  The two keywords correspond to
the two declared settings fields. -/
def SettingsGetter.set (s : Settings)
    (allow_missing_tl_groups : Option Bool)
    (allow_incomplete_meta_data : Option Bool) : Settings :=
  { ALLOW_MISSING_TL_GROUPS :=
      match allow_missing_tl_groups with
      | some v => v
      | none => s.ALLOW_MISSING_TL_GROUPS
    ALLOW_INCOMPLETE_META_DATA :=
      match allow_incomplete_meta_data with
      | some v => v
      | none => s.ALLOW_INCOMPLETE_META_DATA }

/-- Equal-length predicate over all time-indexed fields of an `Object`:
the value and validity series of all fifteen `ValVar` fields, the six raw
sequences and the two classification sequences all have length `L`. -/
def Object.uniformLen (o : Object) (L : Nat) : Prop :=
  o.heading.val.length = L ∧ o.heading.valid.length = L ∧
  o.width.val.length = L ∧ o.width.valid.length = L ∧
  o.height.val.length = L ∧ o.height.valid.length = L ∧
  o.length.val.length = L ∧ o.length.valid.length = L ∧
  o.rcs.length = L ∧ o.age.length = L ∧ o.tracking_point.length = L ∧
  o.confidence_of_existence.length = L ∧ o.movement_classification.length = L ∧
  o.meas_state.length = L ∧
  o.dist_longitudinal.val.length = L ∧ o.dist_longitudinal.valid.length = L ∧
  o.dist_lateral.val.length = L ∧ o.dist_lateral.valid.length = L ∧
  o.dist_z.val.length = L ∧ o.dist_z.valid.length = L ∧
  o.rel_vel_longitudinal.val.length = L ∧ o.rel_vel_longitudinal.valid.length = L ∧
  o.rel_vel_lateral.val.length = L ∧ o.rel_vel_lateral.valid.length = L ∧
  o.abs_vel_longitudinal.val.length = L ∧ o.abs_vel_longitudinal.valid.length = L ∧
  o.abs_vel_lateral.val.length = L ∧ o.abs_vel_lateral.valid.length = L ∧
  o.rel_acc_longitudinal.val.length = L ∧ o.rel_acc_longitudinal.valid.length = L ∧
  o.rel_acc_lateral.val.length = L ∧ o.rel_acc_lateral.valid.length = L ∧
  o.abs_acc_longitudinal.val.length = L ∧ o.abs_acc_longitudinal.valid.length = L ∧
  o.abs_acc_lateral.val.length = L ∧ o.abs_acc_lateral.valid.length = L ∧
  o.object_classification.val.length = L ∧
  o.object_classification.confidence.length = L

/-- A fully populated sample object with two local time-steps. -/
def sampleObject : Object :=
  { id := "RU-7"
    birth_stamp := 10
    heading := ⟨[1, 2], [1, 1]⟩
    width := ⟨[2, 2], [1, 1]⟩
    height := ⟨[3, 3], [1, 1]⟩
    length := ⟨[4, 4], [1, 1]⟩
    rcs := [5, 6]
    age := [0, 1]
    tracking_point := [1, 1]
    confidence_of_existence := [1, 1]
    movement_classification := [2, 2]
    meas_state := [3, 3]
    dist_longitudinal := ⟨[7, 8], [1, 1]⟩
    dist_lateral := ⟨[9, 10], [1, 1]⟩
    dist_z := ⟨[0, 0], [1, 1]⟩
    rel_vel_longitudinal := ⟨[1, 1], [1, 1]⟩
    rel_vel_lateral := ⟨[1, 1], [1, 1]⟩
    abs_vel_longitudinal := ⟨[1, 1], [1, 1]⟩
    abs_vel_lateral := ⟨[1, 1], [1, 1]⟩
    rel_acc_longitudinal := ⟨[1, 1], [1, 1]⟩
    rel_acc_lateral := ⟨[1, 1], [1, 1]⟩
    abs_acc_longitudinal := ⟨[1, 1], [1, 1]⟩
    abs_acc_lateral := ⟨[1, 1], [1, 1]⟩
    object_classification := ⟨[4, 4], [0, 1]⟩ }

/-- An object with `birth_stamp = 10` and `len = 5` (global extent
`[10, 15)`), every other field at its default. -/
def timespanObject : Object :=
  { birth_stamp := 10
    dist_lateral := ⟨[0, 0, 0, 0, 0], [0, 0, 0, 0, 0]⟩ }

/-- An object with `len = 2` but empty raw sequences (default values for
everything except `dist_lateral`). -/
def shortRawObject : Object :=
  { dist_lateral := ⟨[3, 4], [1, 1]⟩ }

/-- A classification with three labels and three in-range confidences. -/
def sampleClassification : ObjectClassification :=
  ⟨[1, 1, 1], [0, 1, 1]⟩

/-! Helper lemmas. -/

theorem pySlice_length (b e : Nat) (l : List α) :
    (pySlice b e l).length = min (e - b) (l.length - b) := by
  simp [pySlice]

theorem pySlice_length_of_uniform (b d L : Nat) (l : List α)
    (hlen : l.length = L) (hbd : b ≤ d) (hdL : d < L) :
    (pySlice b (d + 1) l).length = d - b + 1 := by
  rw [pySlice_length, hlen]
  omega

theorem pySlice_eq_nil_of_short (b e : Nat) (l : List α) (h : l.length ≤ b) :
    pySlice b e l = [] := by
  unfold pySlice
  rw [List.drop_eq_nil_of_le h, List.take_nil]

theorem check_confidence_values_iff (confidence : List Rat) :
    ObjectClassification.check_confidence_values confidence = true ↔
      ∀ x ∈ confidence, 0 ≤ x ∧ x ≤ 1 := by
  cases confidence with
  | nil => simp [ObjectClassification.check_confidence_values]
  | cons y ys =>
      simp [ObjectClassification.check_confidence_values, List.all_eq_true]

theorem oc_cut_eq_some (b d : Int) (c : ObjectClassification)
    (h0 : 0 ≤ b) (h1 : b ≤ d)
    (hv : c.val = [] ∨ (c.val.length : Int) > d)
    (hc : c.confidence = [] ∨ (c.confidence.length : Int) > d) :
    c.cut_to_timespan b d = some
      { val := if c.val.length > 0 then
                 pySlice b.toNat (d.toNat + 1) c.val
               else c.val,
        confidence := if c.confidence.length > 0 then
                        pySlice b.toNat (d.toNat + 1) c.confidence
                      else c.confidence } := by
  have hv' : ¬(c.val.length > 0 ∧
      ¬((c.val.length : Int) > b ∧ (c.val.length : Int) > d)) := by
    rcases hv with h | h
    · simp [h]
    · intro hcontra
      exact hcontra.2 ⟨by omega, h⟩
  have hc' : ¬(c.confidence.length > 0 ∧
      ¬((c.confidence.length : Int) > b ∧ (c.confidence.length : Int) > d)) := by
    rcases hc with h | h
    · simp [h]
    · intro hcontra
      exact hcontra.2 ⟨by omega, h⟩
  unfold ObjectClassification.cut_to_timespan
  rw [if_pos ⟨h0, h1⟩, if_neg hv', if_neg hc']

theorem object_cut_eq_some (b d : Int) (o : Object) (oc : ObjectClassification)
    (h0 : 0 ≤ b) (h1 : b ≤ d) (h2 : (o.len : Int) > d)
    (hoc : o.object_classification.cut_to_timespan b d = some oc) :
    o.cut_to_timespan b d = some
      { id := o.id
        birth_stamp := o.birth_stamp + b
        heading := o.heading.cut_to_timespan b d
        width := o.width.cut_to_timespan b d
        height := o.height.cut_to_timespan b d
        length := o.length.cut_to_timespan b d
        rcs := pySlice b.toNat (d.toNat + 1) o.rcs
        age := pySlice b.toNat (d.toNat + 1) o.age
        tracking_point := pySlice b.toNat (d.toNat + 1) o.tracking_point
        confidence_of_existence :=
          pySlice b.toNat (d.toNat + 1) o.confidence_of_existence
        movement_classification :=
          pySlice b.toNat (d.toNat + 1) o.movement_classification
        meas_state := pySlice b.toNat (d.toNat + 1) o.meas_state
        dist_longitudinal := o.dist_longitudinal.cut_to_timespan b d
        dist_lateral := o.dist_lateral.cut_to_timespan b d
        dist_z := o.dist_z.cut_to_timespan b d
        rel_vel_longitudinal := o.rel_vel_longitudinal.cut_to_timespan b d
        rel_vel_lateral := o.rel_vel_lateral.cut_to_timespan b d
        abs_vel_longitudinal := o.abs_vel_longitudinal.cut_to_timespan b d
        abs_vel_lateral := o.abs_vel_lateral.cut_to_timespan b d
        rel_acc_longitudinal := o.rel_acc_longitudinal.cut_to_timespan b d
        rel_acc_lateral := o.rel_acc_lateral.cut_to_timespan b d
        abs_acc_longitudinal := o.abs_acc_longitudinal.cut_to_timespan b d
        abs_acc_lateral := o.abs_acc_lateral.cut_to_timespan b d
        object_classification := oc } := by
  unfold Object.cut_to_timespan
  rw [if_pos ⟨by omega, h1, h2⟩, hoc]

/-! Claim theorems. -/

/-- Claim C8: `ObjectClassification.cut_to_timespan(birth, death)` with
`0 <= birth <= death` trims its two sequences independently: a non-empty
sequence requires its length to exceed `death` (else the cut fails) and is
narrowed to the closed index range `[birth, death]`; an empty sequence is
left as it is (empty), so an empty-sentinel confidence does not stay
length-synchronized with the trimmed labels. -/
theorem C8_oc_cut_independent (c : ObjectClassification) (b d : Int)
    (h0 : 0 ≤ b) (h1 : b ≤ d) :
    (c.val ≠ [] → (c.val.length : Int) ≤ d → c.cut_to_timespan b d = none) ∧
    (c.confidence ≠ [] → (c.confidence.length : Int) ≤ d →
      c.cut_to_timespan b d = none) ∧
    ((c.val = [] ∨ (c.val.length : Int) > d) →
     (c.confidence = [] ∨ (c.confidence.length : Int) > d) →
      c.cut_to_timespan b d = some
        { val := if c.val.length > 0 then
                   pySlice b.toNat (d.toNat + 1) c.val
                 else c.val,
          confidence := if c.confidence.length > 0 then
                          pySlice b.toNat (d.toNat + 1) c.confidence
                        else c.confidence }) := by
  refine ⟨?_, ?_, fun hv hc => oc_cut_eq_some b d c h0 h1 hv hc⟩
  · intro hne hlen
    have hpos : c.val.length > 0 := List.length_pos.mpr hne
    unfold ObjectClassification.cut_to_timespan
    rw [if_pos ⟨h0, h1⟩, if_pos ⟨hpos, by omega⟩]
  · intro hne hlen
    have hpos : c.confidence.length > 0 := List.length_pos.mpr hne
    unfold ObjectClassification.cut_to_timespan
    rw [if_pos ⟨h0, h1⟩]
    by_cases hval : (c.val.length > 0 ∧
        ¬((c.val.length : Int) > b ∧ (c.val.length : Int) > d))
    · rw [if_pos hval]
    · rw [if_neg hval, if_pos ⟨hpos, by omega⟩]

/-- Witness for C8 at a concrete classification and bounds `1`, `2`. -/
theorem C8_witness :
    (sampleClassification.val ≠ [] → (sampleClassification.val.length : Int) ≤ 2 →
      sampleClassification.cut_to_timespan 1 2 = none) ∧
    (sampleClassification.confidence ≠ [] →
      (sampleClassification.confidence.length : Int) ≤ 2 →
      sampleClassification.cut_to_timespan 1 2 = none) ∧
    ((sampleClassification.val = [] ∨ (sampleClassification.val.length : Int) > 2) →
     (sampleClassification.confidence = [] ∨
       (sampleClassification.confidence.length : Int) > 2) →
      sampleClassification.cut_to_timespan 1 2 = some
        { val := if sampleClassification.val.length > 0 then
                   pySlice (1 : Int).toNat ((2 : Int).toNat + 1) sampleClassification.val
                 else sampleClassification.val,
          confidence := if sampleClassification.confidence.length > 0 then
                          pySlice (1 : Int).toNat ((2 : Int).toNat + 1)
                            sampleClassification.confidence
                        else sampleClassification.confidence }) :=
  C8_oc_cut_independent sampleClassification 1 2 (by decide) (by decide)

/-- Claim C3: `cut_to_timespan(birth, death)` shifts `birth_stamp` by exactly
`birth` and leaves the identity field `id` (the only other non-time-indexed
field) unchanged. -/
theorem C3_cut_shifts_birth_stamp (b d : Int) (o o' : Object)
    (h : o.cut_to_timespan b d = some o') :
    o'.birth_stamp = o.birth_stamp + b ∧ o'.id = o.id := by
  unfold Object.cut_to_timespan at h
  by_cases hcond : (b ≥ 0 ∧ b ≤ d ∧ (o.len : Int) > d)
  · rw [if_pos hcond] at h
    cases hoc : o.object_classification.cut_to_timespan b d with
    | none =>
        rw [hoc] at h
        exact absurd h (by simp)
    | some oc =>
        rw [hoc] at h
        rw [Option.some_inj] at h
        subst h
        exact ⟨rfl, rfl⟩
  · rw [if_neg hcond] at h
    exact absurd h (by simp)

/-- Witness for C3 at `sampleObject` with bounds `1`, `1`. -/
theorem C3_witness :
    Object.cut_to_timespan 1 1 sampleObject =
      some ((Object.cut_to_timespan 1 1 sampleObject).getD {}) ∧
    ((Object.cut_to_timespan 1 1 sampleObject).getD {}).birth_stamp =
      sampleObject.birth_stamp + 1 ∧
    ((Object.cut_to_timespan 1 1 sampleObject).getD {}).id = sampleObject.id := by
  have h : Object.cut_to_timespan 1 1 sampleObject =
      some ((Object.cut_to_timespan 1 1 sampleObject).getD {}) := by decide
  exact ⟨h, C3_cut_shifts_birth_stamp 1 1 sampleObject _ h⟩

/-- Claim C5: `in_timespan(birth, death)` is true iff the closed window
`[birth, death]` overlaps the object's global extent, formally
`death >= birth_stamp AND birth < birth_stamp + len`; and the four concrete
window checks for an object with `birth_stamp = 10`, `len = 5`. -/
theorem C5_in_timespan_overlap :
    (∀ (obj : Object) (birth death : Int),
      obj.in_timespan birth death = true ↔
        (death ≥ obj.birth_stamp ∧ birth < obj.birth_stamp + (obj.len : Int))) ∧
    timespanObject.in_timespan 14 20 = true ∧
    timespanObject.in_timespan 15 20 = false ∧
    timespanObject.in_timespan 0 10 = true ∧
    timespanObject.in_timespan 0 9 = false := by
  refine ⟨fun obj birth death => ?_, by decide, by decide, by decide, by decide⟩
  simp only [Object.in_timespan, Object.len, Bool.and_eq_true, decide_eq_true_eq]
  constructor
  · intro h
    exact ⟨h.2, h.1⟩
  · intro h
    exact ⟨h.2, h.1⟩

/-- Claim C9: `SettingsGetter.set` overwrites exactly the settings fields
passed with a non-null override; a `none` override leaves the prior field
value intact. -/
theorem C9_settings_set_override (s : Settings)
    (missing_tl incomplete_meta : Option Bool) :
    (SettingsGetter.set s missing_tl incomplete_meta).ALLOW_MISSING_TL_GROUPS =
      missing_tl.getD s.ALLOW_MISSING_TL_GROUPS ∧
    (SettingsGetter.set s missing_tl incomplete_meta).ALLOW_INCOMPLETE_META_DATA =
      incomplete_meta.getD s.ALLOW_INCOMPLETE_META_DATA := by
  cases missing_tl <;> cases incomplete_meta <;>
    simp [SettingsGetter.set, Option.getD]

/-- Claim C6: validated construction of an `ObjectClassification` succeeds
iff every confidence value lies in the closed range `[0, 1]` (so an empty
confidence sequence is trivially valid); concretely, `1.5` is rejected while
boundary values `0.0` and `1.0` are accepted. -/
theorem C6_confidence_range :
    (∀ (val : List Int) (confidence : List Rat),
      (ObjectClassification.mk_validated val confidence).isSome = true ↔
        ∀ x ∈ confidence, 0 ≤ x ∧ x ≤ 1) ∧
    ObjectClassification.mk_validated [4] [3/2] = none ∧
    (ObjectClassification.mk_validated [4, 4] [0, 1]).isSome = true ∧
    (ObjectClassification.mk_validated [] []).isSome = true := by
  have h32 : ObjectClassification.mk_validated [4] [3/2] = none := by
    norm_num [ObjectClassification.mk_validated,
      ObjectClassification.check_confidence_values]
  refine ⟨fun val confidence => ?_, h32, by decide, by decide⟩
  rw [← check_confidence_values_iff]
  unfold ObjectClassification.mk_validated
  cases h : ObjectClassification.check_confidence_values confidence <;> simp [h]

/-- Claim C7 counterexample: constructing an `ObjectClassification` from five
labels and the empty confidence sentinel emits the length-mismatch warning
even though the confidence sequence is empty, so the warning condition is not
"lengths differ AND confidence non-empty". -/
theorem C7_counterexample :
    ObjectClassification.mk_validated [1, 1, 1, 1, 1] [] =
      some (⟨[1, 1, 1, 1, 1], []⟩, true) ∧
    ([] : List Rat).isEmpty = true := by decide

/-- Claim C7 (amended): construction with in-range confidence values never
fails regardless of the two sequence lengths, and the length-mismatch warning
is emitted iff the lengths differ (even when confidence is empty); in
particular five labels with empty confidence construct successfully, with the
warning. -/
theorem C7_length_mismatch_warns (val : List Int) (confidence : List Rat)
    (h : ∀ x ∈ confidence, 0 ≤ x ∧ x ≤ 1) :
    ObjectClassification.mk_validated val confidence =
      some (⟨val, confidence⟩, confidence.length != val.length) := by
  unfold ObjectClassification.mk_validated
  rw [if_pos ((check_confidence_values_iff confidence).mpr h)]
  rfl

/-- Witness for C7: the five-labels / empty-confidence instance. -/
theorem C7_witness :
    ObjectClassification.mk_validated [1, 1, 1, 1, 1] ([] : List Rat) =
      some (⟨[1, 1, 1, 1, 1], []⟩,
            ([] : List Rat).length != ([1, 1, 1, 1, 1] : List Int).length) :=
  C7_length_mismatch_warns [1, 1, 1, 1, 1] [] (by simp)

/-- Claim C4: `Object.cut_to_timespan` fails whenever `birth > death`,
`birth < 0`, or `death >= len`. -/
theorem C4_cut_out_of_range (b d : Int) (o : Object)
    (h : b < 0 ∨ b > d ∨ (o.len : Int) ≤ d) :
    o.cut_to_timespan b d = none := by
  unfold Object.cut_to_timespan
  rw [if_neg]
  intro hcond
  rcases h with h | h | h <;> omega

/-- Witness for C4: `cut_to_timespan(2, 10)` on an object with `len = 5`
fails. -/
theorem C4_witness :
    timespanObject.len = 5 ∧
    Object.cut_to_timespan 2 10 timespanObject = none :=
  ⟨by decide,
   C4_cut_out_of_range 2 10 timespanObject (Or.inr (Or.inr (by decide)))⟩

/-- Claim C2 counterexample: on an object whose `dist_lateral` has two
samples but whose raw sequences are empty, `cut_to_timespan(0, 1)` succeeds
and leaves `rcs` with `0` elements, not `death - birth + 1 = 2`. -/
theorem C2_counterexample :
    shortRawObject.len = 2 ∧
    Object.cut_to_timespan 0 1 shortRawObject = some shortRawObject ∧
    shortRawObject.rcs.length = 0 ∧
    (1 : Nat) - 0 + 1 = 2 := by decide

/-- Claim C2 (amended): for any `Object` all of whose time-indexed fields
(the value and validity series of the fifteen `ValVar` fields, the six raw
sequences and both classification sequences) have length `L`, and any
`0 <= birth <= death < L`, `cut_to_timespan(birth, death)` succeeds, the new
`len` equals `death - birth + 1`, and every time-indexed field has exactly
`death - birth + 1` elements. -/
theorem C2_cut_length (o : Object) (L : Nat) (b d : Int)
    (hU : o.uniformLen L) (h0 : 0 ≤ b) (h1 : b ≤ d) (h2 : d < (L : Int)) :
    (o.cut_to_timespan b d).isSome = true ∧
    ∀ o', o.cut_to_timespan b d = some o' →
      o'.len = d.toNat - b.toNat + 1 ∧ o'.uniformLen (d.toNat - b.toNat + 1) := by
  have hb : b.toNat ≤ d.toNat := by omega
  have hd1 : d.toNat < L := by omega
  have hL0 : 0 < L := by omega
  unfold Object.uniformLen at hU
  obtain ⟨u1, u2, u3, u4, u5, u6, u7, u8, u9, u10, u11, u12, u13, u14, u15,
    u16, u17, u18, u19, u20, u21, u22, u23, u24, u25, u26, u27, u28, u29,
    u30, u31, u32, u33, u34, u35, u36, u37, u38⟩ := hU
  have hlen : (o.len : Int) > d := by
    have h17 : o.len = L := u17
    rw [h17]
    exact h2
  have hocv : o.object_classification.val.length > 0 := by
    rw [u37]
    exact hL0
  have hocc : o.object_classification.confidence.length > 0 := by
    rw [u38]
    exact hL0
  have hoc := oc_cut_eq_some b d o.object_classification h0 h1
    (Or.inr (by rw [u37]; exact h2)) (Or.inr (by rw [u38]; exact h2))
  rw [if_pos hocv, if_pos hocc] at hoc
  have hcut := object_cut_eq_some b d o _ h0 h1 hlen hoc
  refine ⟨by rw [hcut]; rfl, ?_⟩
  intro o2 h2cut
  rw [hcut, Option.some_inj] at h2cut
  subst h2cut
  have key : ∀ {α : Type} (l : List α), l.length = L →
      (pySlice b.toNat (d.toNat + 1) l).length = d.toNat - b.toNat + 1 := by
    intro α l hl
    exact pySlice_length_of_uniform _ _ L l hl hb hd1
  refine ⟨key _ u17, key _ u1, key _ u2, key _ u3, key _ u4, key _ u5,
    key _ u6, key _ u7, key _ u8, key _ u9, key _ u10, key _ u11, key _ u12,
    key _ u13, key _ u14, key _ u15, key _ u16, key _ u17, key _ u18,
    key _ u19, key _ u20, key _ u21, key _ u22, key _ u23, key _ u24,
    key _ u25, key _ u26, key _ u27, key _ u28, key _ u29, key _ u30,
    key _ u31, key _ u32, key _ u33, key _ u34, key _ u35, key _ u36,
    key _ u37, key _ u38⟩

/-- Witness for C2 (amended) at `sampleObject` (uniform length `2`) with
bounds `0`, `1`. -/
theorem C2_witness :
    sampleObject.uniformLen 2 ∧
    ((Object.cut_to_timespan 0 1 sampleObject).isSome = true ∧
     ∀ o', Object.cut_to_timespan 0 1 sampleObject = some o' →
       o'.len = 2 ∧ o'.uniformLen 2) := by
  have hU : sampleObject.uniformLen 2 := by
    unfold Object.uniformLen
    decide
  exact ⟨hU, C2_cut_length sampleObject 2 0 1 hU (by decide) (by decide) (by decide)⟩

/-- Claim C10: only `dist_lateral`'s length guards the `death < len`
precondition; whenever the cut goes through, every raw sequence field is
narrowed by the Python slice `[birth : death+1]`, which never raises: it
yields `min(death+1-birth, length-birth)` elements — fewer than
`death - birth + 1` when the field's length is at most `death`, and the empty
sequence when the field's length is at most `birth`. -/
theorem C10_raw_slice_silent (o : Object) (b d : Int)
    (h0 : 0 ≤ b) (h1 : b ≤ d) (h2 : (o.len : Int) > d)
    (hv : o.object_classification.val = [] ∨
      (o.object_classification.val.length : Int) > d)
    (hc : o.object_classification.confidence = [] ∨
      (o.object_classification.confidence.length : Int) > d) :
    (o.cut_to_timespan b d).isSome = true ∧
    (∀ o', o.cut_to_timespan b d = some o' →
      o'.rcs = pySlice b.toNat (d.toNat + 1) o.rcs ∧
      o'.age = pySlice b.toNat (d.toNat + 1) o.age ∧
      o'.tracking_point = pySlice b.toNat (d.toNat + 1) o.tracking_point ∧
      o'.confidence_of_existence =
        pySlice b.toNat (d.toNat + 1) o.confidence_of_existence ∧
      o'.movement_classification =
        pySlice b.toNat (d.toNat + 1) o.movement_classification ∧
      o'.meas_state = pySlice b.toNat (d.toNat + 1) o.meas_state) ∧
    (∀ (α : Type) (l : List α),
      (pySlice b.toNat (d.toNat + 1) l).length =
        min (d.toNat + 1 - b.toNat) (l.length - b.toNat)) ∧
    (∀ (α : Type) (l : List α), l.length ≤ d.toNat →
      (pySlice b.toNat (d.toNat + 1) l).length < d.toNat - b.toNat + 1) ∧
    (∀ (α : Type) (l : List α), l.length ≤ b.toNat →
      pySlice b.toNat (d.toNat + 1) l = []) := by
  have hoc := oc_cut_eq_some b d o.object_classification h0 h1 hv hc
  have hcut := object_cut_eq_some b d o _ h0 h1 h2 hoc
  refine ⟨by rw [hcut]; rfl, ?_, ?_, ?_, ?_⟩
  · intro o' h'
    rw [hcut, Option.some_inj] at h'
    subst h'
    exact ⟨rfl, rfl, rfl, rfl, rfl, rfl⟩
  · intro α l
    exact pySlice_length _ _ l
  · intro α l hl
    rw [pySlice_length]
    omega
  · intro α l hl
    exact pySlice_eq_nil_of_short _ _ l hl

/-- Witness for C10 at `shortRawObject` (whose raw sequences are empty while
`len = 2`) with bounds `0`, `1`. -/
theorem C10_witness :
    (Object.cut_to_timespan 0 1 shortRawObject).isSome = true ∧
    (∀ o', Object.cut_to_timespan 0 1 shortRawObject = some o' →
      o'.rcs = pySlice 0 2 shortRawObject.rcs ∧
      o'.age = pySlice 0 2 shortRawObject.age ∧
      o'.tracking_point = pySlice 0 2 shortRawObject.tracking_point ∧
      o'.confidence_of_existence =
        pySlice 0 2 shortRawObject.confidence_of_existence ∧
      o'.movement_classification =
        pySlice 0 2 shortRawObject.movement_classification ∧
      o'.meas_state = pySlice 0 2 shortRawObject.meas_state) ∧
    (∀ (α : Type) (l : List α),
      (pySlice 0 2 l).length = min 2 l.length) ∧
    (∀ (α : Type) (l : List α), l.length ≤ 1 → (pySlice 0 2 l).length < 2) ∧
    (∀ (α : Type) (l : List α), l.length ≤ 0 → pySlice 0 2 l = []) :=
  C10_raw_slice_silent shortRawObject 0 1 (by decide) (by decide) (by decide)
    (Or.inl rfl) (Or.inl rfl)

theorem oc_from_to_hdf5 (c : ObjectClassification)
    (h : ObjectClassification.check_confidence_values c.confidence = true) :
    ObjectClassification.from_hdf5 c.to_hdf5 true = some c := by
  have hstep : ObjectClassification.from_hdf5 c.to_hdf5 true =
      (ObjectClassification.mk_validated c.val c.confidence).map Prod.fst := rfl
  rw [hstep]
  unfold ObjectClassification.mk_validated
  rw [if_pos h]
  rfl

/-- Claim C1: writing a validly constructed `Object` (one whose confidence
values pass the only construction-time validator) into a fresh store node
named by its `id` and reading that node back with validation enabled yields
the original object in every field. -/
theorem C1_roundtrip (obj : Object)
    (h : ObjectClassification.check_confidence_values
      obj.object_classification.confidence = true) :
    Object.from_hdf5 obj.id obj.to_hdf5 true = some obj := by
  have h1 := oc_from_to_hdf5 obj.object_classification h
  have hstep : Object.from_hdf5 obj.id obj.to_hdf5 true =
      (ObjectClassification.from_hdf5 obj.object_classification.to_hdf5 true).bind
        (fun oc => some
          { id := obj.id
            birth_stamp := obj.birth_stamp
            heading := obj.heading
            width := obj.width
            height := obj.height
            length := obj.length
            rcs := obj.rcs
            age := obj.age
            tracking_point := obj.tracking_point
            confidence_of_existence := obj.confidence_of_existence
            movement_classification := obj.movement_classification
            meas_state := obj.meas_state
            dist_longitudinal := obj.dist_longitudinal
            dist_lateral := obj.dist_lateral
            dist_z := obj.dist_z
            rel_vel_longitudinal := obj.rel_vel_longitudinal
            rel_vel_lateral := obj.rel_vel_lateral
            abs_vel_longitudinal := obj.abs_vel_longitudinal
            abs_vel_lateral := obj.abs_vel_lateral
            rel_acc_longitudinal := obj.rel_acc_longitudinal
            rel_acc_lateral := obj.rel_acc_lateral
            abs_acc_longitudinal := obj.abs_acc_longitudinal
            abs_acc_lateral := obj.abs_acc_lateral
            object_classification := oc }) := rfl
  rw [hstep, h1]
  rfl

/-- Witness for C1 at the fully populated `sampleObject`. -/
theorem C1_witness :
    ObjectClassification.check_confidence_values
      sampleObject.object_classification.confidence = true ∧
    Object.from_hdf5 sampleObject.id sampleObject.to_hdf5 true =
      some sampleObject :=
  ⟨by decide, C1_roundtrip sampleObject (by decide)⟩

end OmegaFormat
